import Mathlib

/-!
Shallow embedding of the client-side data-consistency layer of a
biodiversity-catalog web application: the Zod validation schema and edit
submission pipeline (`edit-species-dialog`), the species-details dialog with
its comment/author lifecycle (`species-details-dialog.tsx`), and the species
card delete flow (two card variants).

Conventions of the embedding:
- JavaScript `string | null` values become `Option String`; JS `null` is
  `none` and the falsiness of `""` is modelled explicitly where the source
  tests `!val`.
- Gateway (Supabase) calls are reified as a `Request` inductive; each handler
  is a pure function from its inputs plus the gateway's response to the
  resulting component state and the list of requests it issued.
- Toasts (non-blocking notifications) are reified as a `Toast` structure.
-/

namespace Biodiversity

/-- The six-value kingdom enumeration from `z.enum([...])` in the schema. -/
inductive Kingdom where
  | Animalia
  | Plantae
  | Fungi
  | Protista
  | Archaea
  | Bacteria
deriving DecidableEq, Repr

/-- String form of a kingdom, as it appears in the enum and the database. -/
def Kingdom.toDbString : Kingdom → String
  | .Animalia => "Animalia"
  | .Plantae => "Plantae"
  | .Fungi => "Fungi"
  | .Protista => "Protista"
  | .Archaea => "Archaea"
  | .Bacteria => "Bacteria"

/-- `z.enum` parsing: an unrecognized string fails, it does not default. -/
def parseKingdom (s : String) : Option Kingdom :=
  if s = "Animalia" then some .Animalia
  else if s = "Plantae" then some .Plantae
  else if s = "Fungi" then some .Fungi
  else if s = "Protista" then some .Protista
  else if s = "Archaea" then some .Archaea
  else if s = "Bacteria" then some .Bacteria
  else none

/-- A species row (`Database["public"]["Tables"]["species"]["Row"]`).
Nullable columns are `Option`; `author` is a nullable profile id. -/
structure Species where
  id : Nat
  scientific_name : String
  common_name : Option String
  kingdom : Kingdom
  total_population : Option Int
  image : Option String
  description : Option String
  endangered : Bool
  author : Option String
deriving DecidableEq, Repr

/-- The raw edit draft handed to the Zod resolver: field values as the form
holds them, before validation/transformation. `kingdom` is still a string
(the select control's value); numeric input has already been converted to a
number or `null` by the input's `onChange`. -/
structure Draft where
  scientific_name : String
  common_name : Option String
  kingdom : String
  total_population : Option Int
  image : Option String
  description : Option String
  endangered : Bool
deriving DecidableEq, Repr

/-- The validated, transformed output of `speciesSchema` (`z.infer`). -/
structure SpeciesForm where
  scientific_name : String
  common_name : Option String
  kingdom : Kingdom
  total_population : Option Int
  image : Option String
  description : Option String
  endangered : Bool
deriving DecidableEq, Repr

/-- JavaScript `String.prototype.trim`, modelled over the character list:
strip leading and trailing whitespace. -/
def jsTrim (s : String) : String :=
  ⟨((s.data.dropWhile Char.isWhitespace).reverse.dropWhile Char.isWhitespace).reverse⟩

/-- The transform shared by `common_name` and `description`:
`(val) => (!val || val.trim() === "" ? null : val.trim())`.
`!val` is true for JS `null` and for `""`. -/
def coerceEmptyToNull (v : Option String) : Option String :=
  match v with
  | none => none
  | some s => if jsTrim s = "" then none else some (jsTrim s)

/-- Models the well-formed-URL check of the validation library's `url()`
rule (`new URL(value)` must not throw): the value must start with a
nonempty, alphabetic-initial scheme followed by a colon. In particular the
empty string is not a well-formed URL. -/
def isWellFormedUrl (s : String) : Bool :=
  let scheme := s.data.takeWhile (fun c => c != ':')
  let rest := s.data.drop scheme.length
  !scheme.isEmpty &&
    (match scheme.head? with
     | some c => c.isAlpha
     | none => false) &&
    !rest.isEmpty

/-- The field names that fail validation for a draft, in schema declaration
order (`scientific_name`, `kingdom`, `total_population`, `image`).
- `scientific_name`: `z.string().trim().min(1)` — trimmed value nonempty.
- `kingdom`: must be one of the six enum values.
- `total_population`: `z.number().int().positive().nullable()`.
- `image`: `z.string().url().nullable()` — the `url()` check runs on the raw
  string value before the empty-to-null transform is ever applied. -/
def draftErrors (d : Draft) : List String :=
  (if jsTrim d.scientific_name = "" then ["scientific_name"] else []) ++
  (if (parseKingdom d.kingdom).isNone then ["kingdom"] else []) ++
  (match d.total_population with
   | some n => if n ≤ 0 then ["total_population"] else []
   | none => []) ++
  (match d.image with
   | some s => if isWellFormedUrl s then [] else ["image"]
   | none => [])

/-- `speciesSchema.parse`: either the set of field-level violations or the
normalized record. Transforms (`image`, `common_name`, `description`
empty-to-null; `scientific_name` trimmed) apply only after their checks
pass. -/
def speciesSchema (d : Draft) : Except (List String) SpeciesForm :=
  match parseKingdom d.kingdom with
  | none => .error (draftErrors d)
  | some k =>
    if draftErrors d = [] then
      .ok
        { scientific_name := jsTrim d.scientific_name
          common_name := coerceEmptyToNull d.common_name
          kingdom := k
          total_population := d.total_population
          image := coerceEmptyToNull d.image
          description := coerceEmptyToNull d.description
          endangered := d.endangered }
    else .error (draftErrors d)

/-- A database value in a payload object. -/
inductive DBValue where
  | vStr (s : String)
  | vInt (n : Int)
  | vBool (b : Bool)
  | vNull
deriving DecidableEq, Repr

/-- Embed an optional string column value. -/
def DBValue.ofOptStr : Option String → DBValue
  | some s => .vStr s
  | none => .vNull

/-- Embed an optional integer column value. -/
def DBValue.ofOptInt : Option Int → DBValue
  | some n => .vInt n
  | none => .vNull

/-- A reified gateway (Supabase) request, carrying exactly the parameters
the client controls: table, payload/columns, and equality filter. -/
inductive Request where
  | update (table : String) (payload : List (String × DBValue))
      (keyField : String) (key : Nat)
  | insertComment (table : String) (species_id : Nat) (user_id : String)
      (comment_text : String) (selectCols : List String)
  | deleteById (table : String) (keyField : String) (key : Nat)
  | selectComments (table : String) (species_id : Nat) (newestFirst : Bool)
      (selectCols : List String)
  | getUser
  | selectProfile (table : String) (authorId : String) (selectCols : List String)
deriving DecidableEq, Repr

/-- A non-blocking toast notification. -/
structure Toast where
  title : String
  description : String
  destructive : Bool
deriving DecidableEq, Repr

/-- The update payload built by `onSubmit` in the edit dialog: exactly the
seven listed columns, in source order (`endangered` is `input.endangered ??
false`, the identity on a non-null boolean). -/
def updatePayload (input : SpeciesForm) : List (String × DBValue) :=
  [("scientific_name", .vStr input.scientific_name),
   ("common_name", .ofOptStr input.common_name),
   ("kingdom", .vStr input.kingdom.toDbString),
   ("total_population", .ofOptInt input.total_population),
   ("image", .ofOptStr input.image),
   ("description", .ofOptStr input.description),
   ("endangered", .vBool input.endangered)]

/-- Convert the validated form values back to draft shape, as `form.reset
(input)` stores them as the new pristine values. -/
def draftOfForm (f : SpeciesForm) : Draft :=
  { scientific_name := f.scientific_name
    common_name := f.common_name
    kingdom := f.kingdom.toDbString
    total_population := f.total_population
    image := f.image
    description := f.description
    endangered := f.endangered }

/-- Observable outcome of one edit-form submission. -/
structure EditSubmitResult where
  requests : List Request
  fieldErrors : List String
  toasts : List Toast
  dialogOpen : Bool
  formValues : Draft
  refreshed : Bool
deriving DecidableEq, Repr

/-- The edit dialog's submission pipeline: `form.handleSubmit(onSubmit)`.
The resolver runs `speciesSchema` on the draft; on failure it surfaces
field errors and never calls `onSubmit`. On success `onSubmit` issues one
`update` keyed by `species.id`; `gatewayError` is the `error` field of the
gateway's reply. On gateway error: destructive toast with the gateway
message, early return (dialog stays open, form untouched). On success:
`form.reset(input)`, close dialog, `router.refresh()`, success toast. -/
def editSubmit (species : Species) (draft : Draft) (gatewayError : Option String) :
    EditSubmitResult :=
  match speciesSchema draft with
  | .error errs =>
    { requests := []
      fieldErrors := errs
      toasts := []
      dialogOpen := true
      formValues := draft
      refreshed := false }
  | .ok input =>
    let req := Request.update "species" (updatePayload input) "id" species.id
    match gatewayError with
    | some msg =>
      { requests := [req]
        fieldErrors := []
        toasts := [{ title := "Error updating species."
                     description := msg
                     destructive := true }]
        dialogOpen := true
        formValues := draft
        refreshed := false }
    | none =>
      { requests := [req]
        fieldErrors := []
        toasts := [{ title := "Species updated!"
                     description := "Successfully updated " ++ input.scientific_name ++ "."
                     destructive := false }]
        dialogOpen := false
        formValues := draftOfForm input
        refreshed := true }

/-- An author profile as fetched by the details dialog
(`select("display_name, email")`). -/
structure Author where
  display_name : Option String
  email : String
deriving DecidableEq, Repr

/-- A comment as held in the dialog's in-memory list: the row columns plus
the joined author `display_name` (`user.display_name`). -/
structure Comment where
  id : Nat
  comment_text : String
  created_at : String
  user_id : String
  display_name : Option String
deriving DecidableEq, Repr

/-- A comment row as the gateway returns it from
`select(id, comment_text, created_at, user_id, profiles!inner(display_name))`:
the joined profile comes back as an array of `display_name` values. -/
structure SupabaseComment where
  id : Nat
  comment_text : String
  created_at : String
  user_id : String
  profiles : List (Option String)
deriving DecidableEq, Repr

/-- `newCommentObject`: the in-memory comment built from the gateway's
returned row; `typedData.profiles?.[0]?.display_name ?? "Unknown"`. -/
def commentOfRow (row : SupabaseComment) : Comment :=
  { id := row.id
    comment_text := row.comment_text
    created_at := row.created_at
    user_id := row.user_id
    display_name := some (match row.profiles.head? with
      | some (some n) => n
      | _ => "Unknown") }

/-- The complete React state of one `SpeciesDetailsDialog` instance: the
five `useState` hooks (`open`, `author`, `comments`, `newComment`,
`userId`). The component stays mounted while its card is mounted, so this
state survives the dialog being closed. -/
structure DialogState where
  openFlag : Bool
  author : Option Author
  comments : List Comment
  newComment : String
  userId : Option String
deriving DecidableEq, Repr

/-- The initial state of a freshly mounted dialog component. -/
def DialogState.initial : DialogState :=
  { openFlag := false
    author := none
    comments := []
    newComment := ""
    userId := none }

/-- Dismissing the dialog: `onOpenChange` fires `setOpen(false)`. No other
state update is attached to the close transition anywhere in the source;
the effects' bodies run only when `open` is true. -/
def closeDialog (s : DialogState) : DialogState :=
  { s with openFlag := false }

/-- Results of the fetches dispatched when the dialog opens. `none` models
the fetch failing (its error is only logged); for the session fetch,
`some uid?` is `data?.user?.id ?? null`. -/
structure FetchResults where
  commentsResult : Option (List Comment)
  sessionResult : Option (Option String)
  authorResult : Option Author
deriving DecidableEq, Repr

/-- The column list requested for comments, including the joined author
display name:
`id, comment_text, created_at, user_id, profiles!inner(display_name)`. -/
def commentSelectCols : List String :=
  ["id", "comment_text", "created_at", "user_id", "profiles!inner(display_name)"]

/-- The fetch requests dispatched by the two `useEffect`s when `open`
becomes true: the comment list (newest first, with joined display name),
the session user, and — only when `species.author` is set — the author
profile. -/
def openFetches (species : Species) : List Request :=
  [Request.selectComments "comments" species.id true commentSelectCols,
   Request.getUser] ++
  (match species.author with
   | some a => [Request.selectProfile "profiles" a ["display_name", "email"]]
   | none => [])

/-- Opening the dialog: `setOpen(true)` plus the effects' state updates once
the fetches resolve. A successful comments fetch replaces the whole list
(`setComments(data)`); a failed fetch leaves its slice of state untouched
(error only logged). The author fetch is skipped when `species.author` is
null. -/
def openDialog (species : Species) (s : DialogState) (f : FetchResults) :
    DialogState :=
  let s1 := { s with openFlag := true }
  let s2 := match f.commentsResult with
    | some data => { s1 with comments := data }
    | none => s1
  let s3 := match f.sessionResult with
    | some uid => { s2 with userId := uid }
    | none => s2
  match species.author with
  | some _ =>
    (match f.authorResult with
     | some a => { s3 with author := some a }
     | none => s3)
  | none => s3

/-- `handleAddComment`: returns the next dialog state and the gateway
requests issued. `if (!newComment.trim() || !userId) return;` guards the
insert; `gatewayRow` is the row handed back by
`.insert(...).select(...).single()` (`none` on error). On success the row
is prepended and the input cleared; on error nothing changes. -/
def handleAddComment (species : Species) (s : DialogState)
    (gatewayRow : Option SupabaseComment) : DialogState × List Request :=
  if jsTrim s.newComment = "" then (s, [])
  else
    match s.userId with
    | none => (s, [])
    | some uid =>
      let req := Request.insertComment "comments" species.id uid s.newComment
        commentSelectCols
      match gatewayRow with
      | some row =>
        ({ s with comments := commentOfRow row :: s.comments, newComment := "" }, [req])
      | none => (s, [req])

/-- `handleDeleteComment(commentId)`: one delete-by-id; when the gateway
reports no error, `setComments(prev.filter(c => c.id !== commentId))`. -/
def handleDeleteComment (s : DialogState) (commentId : Nat)
    (gatewayError : Option String) : DialogState × List Request :=
  let req := Request.deleteById "comments" "id" commentId
  match gatewayError with
  | none => ({ s with comments := s.comments.filter (fun c => c.id ≠ commentId) }, [req])
  | some _ => (s, [req])

/-- The render-time gate on the per-comment delete button:
`userId === comment.user_id` (strict equality; JS `null === string` is
false). -/
def showDeleteControl (userId : Option String) (c : Comment) : Bool :=
  match userId with
  | some u => u == c.user_id
  | none => false

/-- The delete requests reachable from the rendered comment list: a delete
button (hence a `handleDeleteComment(comment.id)` call) exists only for
comments passing the ownership gate. -/
def renderedDeleteRequests (s : DialogState) : List Request :=
  (s.comments.filter (fun c => showDeleteControl s.userId c)).map
    (fun c => Request.deleteById "comments" "id" c.id)

/-- How a JS template literal renders a nullable string: `null` prints as
"null". Used by the card's confirm prompt and toasts on `common_name`. -/
def jsInterp (v : Option String) : String :=
  match v with
  | some s => s
  | none => "null"

/-- Observable outcome of one species-card delete interaction. -/
structure CardDeleteResult where
  requests : List Request
  toasts : List Toast
  reloaded : Bool
  isDeleting : Bool
deriving DecidableEq, Repr

namespace CardV1

/-- `handleDelete` from the first `SpeciesCard` variant: confirm prompt;
declined ⇒ plain return. Accepted ⇒ one delete-by-id, then an error or
success toast, `setIsDeleting(false)`, and `window.location.reload()` on
both paths. -/
def handleDelete (species : Species) (confirmed : Bool)
    (gatewayError : Option String) : CardDeleteResult :=
  if ¬confirmed then
    { requests := [], toasts := [], reloaded := false, isDeleting := false }
  else
    let req := Request.deleteById "species" "id" species.id
    match gatewayError with
    | some msg =>
      { requests := [req]
        toasts := [{ title := "Error deleting species"
                     description := msg
                     destructive := true }]
        reloaded := true
        isDeleting := false }
    | none =>
      { requests := [req]
        toasts := [{ title := "Species deleted"
                     description := jsInterp species.common_name ++ " was successfully deleted."
                     destructive := false }]
        reloaded := true
        isDeleting := false }

/-- The ownership gate of the first card variant:
`species.author === sessionId`. -/
def ownerGate (species : Species) (sessionId : String) : Bool :=
  match species.author with
  | some a => a == sessionId
  | none => false

end CardV1

namespace CardV2

/-- `handleDelete` from the second `SpeciesCard` variant: confirm prompt;
declined ⇒ plain return. Accepted ⇒ one delete-by-id, then an error or
success toast, `setIsDeleting(false)`, and `window.location.reload()` on
both paths. -/
def handleDelete (species : Species) (confirmed : Bool)
    (gatewayError : Option String) : CardDeleteResult :=
  if ¬confirmed then
    { requests := [], toasts := [], reloaded := false, isDeleting := false }
  else
    let req := Request.deleteById "species" "id" species.id
    match gatewayError with
    | some msg =>
      { requests := [req]
        toasts := [{ title := "Error deleting species"
                     description := msg
                     destructive := true }]
        reloaded := true
        isDeleting := false }
    | none =>
      { requests := [req]
        toasts := [{ title := "Species deleted"
                     description := jsInterp species.common_name ++ " was successfully deleted."
                     destructive := false }]
        reloaded := true
        isDeleting := false }

/-- The ownership gate of the second card variant:
`species.author === sessionId`. -/
def ownerGate (species : Species) (sessionId : String) : Bool :=
  match species.author with
  | some a => a == sessionId
  | none => false

end CardV2

/-! ## Concrete inputs used by counterexamples and witnesses -/

/-- An edit draft that is valid except that `image` is the empty string. -/
def emptyImageDraft : Draft :=
  { scientific_name := "Homo sapiens"
    common_name := some "Human"
    kingdom := "Animalia"
    total_population := some 1000
    image := some ""
    description := none
    endangered := false }

/-- A concrete species record. -/
def sampleSpecies : Species :=
  { id := 7
    scientific_name := "Homo sapiens"
    common_name := some "Human"
    kingdom := .Animalia
    total_population := some 1000
    image := some ""
    description := none
    endangered := false
    author := some "user-1" }

/-- A concrete comment held in a dialog's in-memory list. -/
def sampleComment : Comment :=
  { id := 3
    comment_text := "Great find!"
    created_at := "2025-03-01T12:00:00Z"
    user_id := "user-1"
    display_name := some "Alice" }

/-- A concrete dialog state that is open and holds a comment, an author and
a half-typed input. -/
def sampleOpenState : DialogState :=
  { openFlag := true
    author := some { display_name := some "Alice", email := "alice@example.com" }
    comments := [sampleComment]
    newComment := "draft text"
    userId := some "user-1" }

/-- A comment by a different user than `sampleOpenState`'s viewer. -/
def otherComment : Comment :=
  { id := 4
    comment_text := "Nice one"
    created_at := "2025-03-02T09:00:00Z"
    user_id := "user-2"
    display_name := some "Bob" }

/-- A fully valid edit draft. -/
def validDraft : Draft :=
  { scientific_name := "Homo sapiens"
    common_name := some "Human"
    kingdom := "Animalia"
    total_population := some 1000
    image := none
    description := none
    endangered := false }

/-- The normalized record `speciesSchema` produces for `validDraft`. -/
def validForm : SpeciesForm :=
  { scientific_name := "Homo sapiens"
    common_name := some "Human"
    kingdom := .Animalia
    total_population := some 1000
    image := none
    description := none
    endangered := false }

/-- A draft whose `scientific_name` trims to the empty string. -/
def emptyNameDraft : Draft :=
  { scientific_name := "   "
    common_name := none
    kingdom := "Animalia"
    total_population := none
    image := none
    description := none
    endangered := false }

/-- A gateway-returned comment row for the add-comment flow. -/
def sampleRow : SupabaseComment :=
  { id := 9
    comment_text := "draft text"
    created_at := "2025-03-03T10:00:00Z"
    user_id := "user-1"
    profiles := [some "Alice"] }

/-! ## Claims -/

/-- C1 (counter-evidence for the claimed behavior, recorded as a code bug):
on a draft whose `image` field is the empty string, `speciesSchema` does
NOT coerce the value to null — the `url()` check runs on the raw string
before the empty-to-null transform, rejects `""`, and validation fails with
a field error on `image`, so no value (null or otherwise) is ever written
to the gateway. The transform itself (last conjunct) would have coerced
`""` to null had it been reached, which is the coercion the schema's own
transform code expresses. -/
theorem empty_image_fails_url_check_blocking_write :
    speciesSchema emptyImageDraft = Except.error ["image"] ∧
    (editSubmit sampleSpecies emptyImageDraft none).requests = [] ∧
    coerceEmptyToNull (some "") = none := by
  refine ⟨rfl, ?_, rfl⟩
  have h : speciesSchema emptyImageDraft = Except.error ["image"] := rfl
  simp [editSubmit, h]

/-- C2 (counterexample): dismissing the dialog does not discard the
in-memory comment/author state — after `closeDialog` on a state holding a
comment, an author and a typed input, all of them are still present. -/
theorem close_retains_comment_and_author_state :
    ¬((closeDialog sampleOpenState).comments = [] ∧
      (closeDialog sampleOpenState).author = none ∧
      (closeDialog sampleOpenState).newComment = "") := by
  decide

/-- C2 (amended): the `Open → Closed` transition only clears the open flag
and preserves every other piece of dialog state in memory; the next opening
re-dispatches the comment-list and session fetches (and the author fetch
when the species has an author), and a successful comments refetch
overwrites the list wholesale with the gateway's data, so reconciliation
happens by refetch-and-overwrite rather than by starting from empty
state. -/
theorem close_preserves_state_and_reopen_refetches
    (s : DialogState) (sp : Species) (f : FetchResults) :
    (closeDialog s).openFlag = false ∧
    (closeDialog s).comments = s.comments ∧
    (closeDialog s).author = s.author ∧
    (closeDialog s).newComment = s.newComment ∧
    (closeDialog s).userId = s.userId ∧
    Request.selectComments "comments" sp.id true commentSelectCols ∈ openFetches sp ∧
    Request.getUser ∈ openFetches sp ∧
    (∀ a, sp.author = some a →
      Request.selectProfile "profiles" a ["display_name", "email"] ∈ openFetches sp) ∧
    (∀ data, f.commentsResult = some data →
      (openDialog sp (closeDialog s) f).comments = data) := by
  refine ⟨rfl, rfl, rfl, rfl, rfl, ?_, ?_, ?_, ?_⟩
  · simp [openFetches]
  · simp [openFetches]
  · intro a ha
    simp [openFetches, ha]
  · intro data hdata
    cases hsa : sp.author <;>
      cases hau : f.authorResult <;>
        cases hss : f.sessionResult <;>
          simp [openDialog, hsa, hau, hss, hdata, closeDialog]

/-- Witness for the amended C2 theorem at a concrete state, species and
fetch result. -/
theorem close_preserves_state_and_reopen_refetches_witness :
    (openDialog sampleSpecies (closeDialog sampleOpenState)
      { commentsResult := some [], sessionResult := some (some "user-2"),
        authorResult := none }).comments = [] :=
  ((close_preserves_state_and_reopen_refetches sampleOpenState sampleSpecies
      { commentsResult := some [], sessionResult := some (some "user-2"),
        authorResult := none }).2.2.2.2.2.2.2.2) [] rfl

/-- C3: a viewer whose session identity differs from a comment's `user_id`
is rendered no delete control for that comment, and (comment ids being
unique) no delete request for that comment's id is reachable from the
rendered list. -/
theorem delete_control_only_for_comment_owner (s : DialogState) (c : Comment)
    (h : s.userId ≠ some c.user_id)
    (huniq : ∀ c' ∈ s.comments, c'.id = c.id → c' = c) :
    showDeleteControl s.userId c = false ∧
    Request.deleteById "comments" "id" c.id ∉ renderedDeleteRequests s := by
  have hshow : showDeleteControl s.userId c = false := by
    cases hu : s.userId with
    | none => simp [showDeleteControl]
    | some u =>
      have hne : u ≠ c.user_id := fun heq => h (hu ▸ heq ▸ rfl)
      simp [showDeleteControl, hne]
  refine ⟨hshow, ?_⟩
  intro hmem
  unfold renderedDeleteRequests at hmem
  rw [List.mem_map] at hmem
  obtain ⟨c', hc', heq⟩ := hmem
  rw [List.mem_filter] at hc'
  obtain ⟨hc'mem, hc'show⟩ := hc'
  have hid : c'.id = c.id := by injection heq
  rw [huniq c' hc'mem hid] at hc'show
  rw [hshow] at hc'show
  exact Bool.false_ne_true hc'show

/-- Witness for C3: in the sample open state (viewer `user-1`), the comment
by `user-2` gets no delete control and no reachable delete request. -/
theorem delete_control_only_for_comment_owner_witness :
    showDeleteControl sampleOpenState.userId otherComment = false ∧
    Request.deleteById "comments" "id" otherComment.id ∉
      renderedDeleteRequests sampleOpenState :=
  delete_control_only_for_comment_owner sampleOpenState otherComment
    (by decide) (by decide)

/-- C4: when the gateway returns an error on a valid edit submission, a
single destructive toast carrying the gateway's message is surfaced, the
dialog stays open, the form draft is unchanged, and no refresh happens. -/
theorem gateway_error_keeps_dialog_open_and_draft (sp : Species) (d : Draft)
    (input : SpeciesForm) (msg : String) (h : speciesSchema d = .ok input) :
    (editSubmit sp d (some msg)).toasts =
      [{ title := "Error updating species.", description := msg, destructive := true }] ∧
    (editSubmit sp d (some msg)).dialogOpen = true ∧
    (editSubmit sp d (some msg)).formValues = d ∧
    (editSubmit sp d (some msg)).refreshed = false := by
  simp [editSubmit, h]

/-- Witness for C4 at a concrete valid draft and gateway error. -/
theorem gateway_error_keeps_dialog_open_and_draft_witness :
    (editSubmit sampleSpecies validDraft (some "network down")).toasts =
      [{ title := "Error updating species.", description := "network down",
         destructive := true }] ∧
    (editSubmit sampleSpecies validDraft (some "network down")).dialogOpen = true ∧
    (editSubmit sampleSpecies validDraft (some "network down")).formValues = validDraft ∧
    (editSubmit sampleSpecies validDraft (some "network down")).refreshed = false :=
  gateway_error_keeps_dialog_open_and_draft sampleSpecies validDraft validForm
    "network down" rfl

/-- C5: `addComment` is a no-op (no request, state unchanged) when the text
trims to empty or there is no session identity; otherwise it issues exactly
one insert requesting the created row with the joined author display name,
and on a returned row prepends that row to the list and clears the input. -/
theorem addComment_guard_insert_prepend (sp : Species) (s : DialogState)
    (g : Option SupabaseComment) :
    (jsTrim s.newComment = "" ∨ s.userId = none → handleAddComment sp s g = (s, [])) ∧
    (∀ uid, jsTrim s.newComment ≠ "" → s.userId = some uid →
      (handleAddComment sp s g).snd =
        [Request.insertComment "comments" sp.id uid s.newComment commentSelectCols] ∧
      ∀ row, g = some row →
        (handleAddComment sp s g).fst.comments = commentOfRow row :: s.comments ∧
        (handleAddComment sp s g).fst.newComment = "") := by
  constructor
  · rintro (h | h)
    · simp [handleAddComment, h]
    · by_cases ht : jsTrim s.newComment = ""
      · simp [handleAddComment, ht]
      · simp [handleAddComment, ht, h]
  · intro uid ht hu
    constructor
    · cases g with
      | none => simp [handleAddComment, ht, hu]
      | some row => simp [handleAddComment, ht, hu]
    · intro row hrow
      subst hrow
      constructor <;> simp [handleAddComment, ht, hu]

/-- Witness for C5: in the sample open state the typed text inserts once,
the returned row is prepended, and the input clears. -/
theorem addComment_guard_insert_prepend_witness :
    (handleAddComment sampleSpecies sampleOpenState (some sampleRow)).snd =
      [Request.insertComment "comments" sampleSpecies.id "user-1"
        sampleOpenState.newComment commentSelectCols] ∧
    (handleAddComment sampleSpecies sampleOpenState (some sampleRow)).fst.comments =
      commentOfRow sampleRow :: sampleOpenState.comments ∧
    (handleAddComment sampleSpecies sampleOpenState (some sampleRow)).fst.newComment
      = "" := by
  have h := (addComment_guard_insert_prepend sampleSpecies sampleOpenState
    (some sampleRow)).2 "user-1" (by decide) rfl
  exact ⟨h.1, (h.2 sampleRow rfl).1, (h.2 sampleRow rfl).2⟩

/-- C6: `deleteComment(id)` issues one delete-by-id; on gateway success
exactly the entries whose id matches are removed from the in-memory list
(membership characterization), and on gateway failure the state is left
entirely unchanged. -/
theorem deleteComment_filters_on_success_only (s : DialogState) (cid : Nat) :
    (∀ c : Comment, c ∈ (handleDeleteComment s cid none).fst.comments ↔
      c ∈ s.comments ∧ c.id ≠ cid) ∧
    (handleDeleteComment s cid none).snd = [Request.deleteById "comments" "id" cid] ∧
    (∀ msg, (handleDeleteComment s cid (some msg)).fst = s ∧
      (handleDeleteComment s cid (some msg)).snd =
        [Request.deleteById "comments" "id" cid]) := by
  refine ⟨?_, rfl, ?_⟩
  · intro c
    simp [handleDeleteComment, List.mem_filter]
  · intro msg
    exact ⟨rfl, rfl⟩

/-- Witness for C6: deleting id 3 in the sample state removes the matching
comment on success, and leaves the state unchanged on failure. -/
theorem deleteComment_filters_on_success_only_witness :
    sampleComment ∉ (handleDeleteComment sampleOpenState 3 none).fst.comments ∧
    (handleDeleteComment sampleOpenState 3 (some "err")).fst = sampleOpenState := by
  have h := deleteComment_filters_on_success_only sampleOpenState 3
  refine ⟨?_, (h.2.2 "err").1⟩
  intro hmem
  exact ((h.1 sampleComment).mp hmem).2 rfl

/-- C7: every successful validation leads to exactly one update request,
keyed by the record's `id` on the `species` table, and the payload's keys
never include `author`. -/
theorem update_keyed_by_id_never_includes_author (sp : Species) (d : Draft)
    (input : SpeciesForm) (gerr : Option String)
    (h : speciesSchema d = .ok input) :
    (editSubmit sp d gerr).requests =
      [Request.update "species" (updatePayload input) "id" sp.id] ∧
    "author" ∉ (updatePayload input).map Prod.fst := by
  constructor
  · cases gerr <;> simp [editSubmit, h]
  · simp [updatePayload]

/-- Witness for C7 at a concrete valid draft. -/
theorem update_keyed_by_id_never_includes_author_witness :
    (editSubmit sampleSpecies validDraft none).requests =
      [Request.update "species" (updatePayload validForm) "id" sampleSpecies.id] ∧
    "author" ∉ (updatePayload validForm).map Prod.fst :=
  update_keyed_by_id_never_includes_author sampleSpecies validDraft validForm none rfl

/-- C8: a draft whose `scientific_name` trims to empty never reaches the
gateway (no request) and a field-level error is reported on
`scientific_name`. -/
theorem empty_scientific_name_blocks_submit (sp : Species) (d : Draft)
    (gerr : Option String) (h : jsTrim d.scientific_name = "") :
    (editSubmit sp d gerr).requests = [] ∧
    "scientific_name" ∈ (editSubmit sp d gerr).fieldErrors := by
  have herr : "scientific_name" ∈ draftErrors d := by
    unfold draftErrors
    rw [if_pos h]
    simp
  have hne : draftErrors d ≠ [] := by
    intro hnil
    rw [hnil] at herr
    exact List.not_mem_nil _ herr
  have hs : speciesSchema d = .error (draftErrors d) := by
    cases hpk : parseKingdom d.kingdom with
    | none => simp [speciesSchema, hpk]
    | some k => simp [speciesSchema, hpk, hne]
  simp [editSubmit, hs, herr]

/-- Witness for C8 at a whitespace-only scientific name. -/
theorem empty_scientific_name_blocks_submit_witness :
    (editSubmit sampleSpecies emptyNameDraft none).requests = [] ∧
    "scientific_name" ∈ (editSubmit sampleSpecies emptyNameDraft none).fieldErrors :=
  empty_scientific_name_blocks_submit sampleSpecies emptyNameDraft none rfl

/-- C9: in both card variants, a declined confirmation issues no gateway
request and no reload; an accepted confirmation issues exactly one
delete-by-id and reloads the page whether or not the gateway errored. -/
theorem card_delete_confirmation_gate (sp : Species) (gerr : Option String) :
    (CardV1.handleDelete sp false gerr =
      { requests := [], toasts := [], reloaded := false, isDeleting := false }) ∧
    (CardV2.handleDelete sp false gerr =
      { requests := [], toasts := [], reloaded := false, isDeleting := false }) ∧
    ((CardV1.handleDelete sp true gerr).requests =
        [Request.deleteById "species" "id" sp.id] ∧
      (CardV1.handleDelete sp true gerr).reloaded = true) ∧
    ((CardV2.handleDelete sp true gerr).requests =
        [Request.deleteById "species" "id" sp.id] ∧
      (CardV2.handleDelete sp true gerr).reloaded = true) := by
  cases gerr <;> exact ⟨rfl, rfl, ⟨rfl, rfl⟩, ⟨rfl, rfl⟩⟩

/-- C10: the two `SpeciesCard` source variants are behaviorally equivalent:
on every `(species, sessionId)` they compute the same ownership gate, and
their delete handlers produce identical request/toast/reload outcomes on
every confirmation answer and gateway reply. -/
theorem card_variants_behaviorally_equal (sp : Species) (sessionId : String)
    (confirmed : Bool) (gerr : Option String) :
    CardV1.ownerGate sp sessionId = CardV2.ownerGate sp sessionId ∧
    CardV1.handleDelete sp confirmed gerr = CardV2.handleDelete sp confirmed gerr :=
  ⟨rfl, rfl⟩

end Biodiversity
